import Mathlib

/-!
Verification of the ClickHouse agent request-orchestration core.

Shallow embedding of the Python sources:
  - core/router.py            (router_node)
  - core/graph_builder.py     (conditional edges)
  - core/tool_nodes.py        (execute_query_node, export_csv_node,
                               format_response_node, _handle_schema_request)
  - main.py                   (ClickHouseAgent pipeline steps)
  - tools/smart_intent_analyzer_tool.py
  - tools/smart_sql_generator_tool.py
  - tools/response_formatter_tool.py
  - config/schemas.py         (TABLE_SCHEMAS)

Python strings are Lean `String`s, dicts with fixed keys are structures
(absent-able keys are `Option`s), floats are `ℚ`, and the two external
LLM calls are parameters of the functions that consume their output.
-/

/-! ### Python string primitives used by the sources -/

/-- Python `needle in haystack` prefix step: `l₁` is a prefix of `l₂`. -/
def listIsPrefix : List Char → List Char → Bool
  | [], _ => true
  | _ :: _, [] => false
  | a :: as, b :: bs => a == b && listIsPrefix as bs

/-- Python substring containment `needle in hay` on character lists. -/
def listContainsSub (needle : List Char) : List Char → Bool
  | [] => listIsPrefix needle []
  | h :: t => listIsPrefix needle (h :: t) || listContainsSub needle t

/-- Python `needle in hay` for strings. -/
def strIn (needle hay : String) : Bool :=
  listContainsSub needle.data hay.data

/-- Python `s.lower()` (ASCII, as in the sources). -/
def pyLower (s : String) : String :=
  String.mk (s.data.map Char.toLower)

/-- Python `s.upper()` (ASCII, as in the sources). -/
def pyUpper (s : String) : String :=
  String.mk (s.data.map Char.toUpper)

/-- Python `s.strip()`: remove leading and trailing whitespace. -/
def pyStrip (s : String) : String :=
  String.mk
    (((s.data.dropWhile Char.isWhitespace).reverse.dropWhile
        Char.isWhitespace).reverse)

/-- Python `s.startswith(pre)`. -/
def pyStartsWith (s pre : String) : Bool :=
  listIsPrefix pre.data s.data

/-- Python `sep.join(parts)`. -/
def pyJoin (sep : String) : List String → String
  | [] => ""
  | [x] => x
  | x :: y :: rest => x ++ sep ++ pyJoin sep (y :: rest)

/-- Python `s.rstrip(c)` for a single character `c`. -/
def rstripChar (c : Char) (s : String) : String :=
  String.mk ((s.data.reverse.dropWhile (· == c)).reverse)

/-- Decimal digits of `n`, most significant first. -/
def natDigitsStr (n : Nat) : String :=
  String.mk ((Nat.toDigits 10 n))

/-- Split a reversed digit list into groups of three (for comma grouping). -/
def chunk3 : List Char → List (List Char)
  | [] => []
  | [a] => [[a]]
  | [a, b] => [[a, b]]
  | a :: b :: c :: rest => [a, b, c] :: chunk3 rest

/-- Python `"{n:,}"` comma grouping of a natural number. -/
def groupDigits (n : Nat) : String :=
  let ds := (Nat.toDigits 10 n).reverse
  pyJoin "," (((chunk3 ds).map List.reverse).reverse.map String.mk)

example : groupDigits 1234567 = "1,234,567" := by decide

theorem strIn_test : strIn "tables" "list tables please" = true := by decide

/-! ### core/router.py — router_node / classification -/

/-- The three route categories (`query_type` values set by `router_node`). -/
inductive Route
  | data_query
  | schema_request
  | help_request
deriving DecidableEq, Repr

/-- `schema_keywords` from core/router.py, line 31. -/
def schema_keywords : List String :=
  ["list tables", "show tables", "schema", "table structure", "describe table"]

/-- `help_keywords` from core/router.py, line 40. -/
def help_keywords : List String :=
  ["help", "?", "aide", "assistant", "how to use", "usage"]

/-- `router_node` (core/router.py): lowercases and strips the question, then
matches the schema keywords first, the help keywords second, and defaults to
`data_query`.  Only the `query_type` assignment is modelled; the verbose
prints are I/O only. -/
def classify (user_question : String) : Route :=
  let question := pyStrip (pyLower user_question)
  if schema_keywords.any (fun keyword => strIn keyword question) then
    .schema_request
  else if help_keywords.any (fun keyword => strIn keyword question) then
    .help_request
  else
    .data_query

/-- The conditional edges of core/graph_builder.py (lines 62-70): the node
that the graph enters after the router, keyed by `query_type`. -/
def route_target : Route → String
  | .data_query => "agent_intent_analysis"
  | .schema_request => "format_response"
  | .help_request => "format_response"

example : classify "LIST TABLES please" = .schema_request := by decide
example : classify "how much data was used?" = .help_request := by decide
example : classify "show me data" = .data_query := by decide
example : classify "help schema" = .schema_request := by decide

/-- C5: a question whose lowercased, stripped text contains any schema
keyword is classified SCHEMA_REQUEST, regardless of case or surrounding
text, and regardless of any help keyword it may also contain (the schema
keywords are tested first in router_node). -/
theorem classify_schema_keyword_first (q : String)
    (h : ∃ k ∈ schema_keywords, strIn k (pyStrip (pyLower q)) = true) :
    classify q = Route.schema_request := by
  unfold classify
  rw [if_pos]
  exact List.any_eq_true.mpr h

/-- Witness for C5: a question that contains both a help keyword ("help")
and a schema keyword ("describe table"), in mixed case. -/
theorem classify_schema_keyword_first_witness :
    (∃ k ∈ schema_keywords,
        strIn k (pyStrip (pyLower "Help: DESCRIBE TABLE cell ")) = true) ∧
    (∃ k ∈ help_keywords,
        strIn k (pyStrip (pyLower "Help: DESCRIBE TABLE cell ")) = true) ∧
    classify "Help: DESCRIBE TABLE cell " = Route.schema_request :=
  ⟨⟨"describe table", by decide, by decide⟩,
   ⟨"help", by decide, by decide⟩,
   classify_schema_keyword_first _ ⟨"describe table", by decide, by decide⟩⟩

/-- C6: `classify` is total — on every question it returns one of the three
routes — and on a question containing no schema keyword and no help keyword
it returns the DATA_QUERY default. -/
theorem classify_total_and_default (q : String)
    (h : ∀ k ∈ schema_keywords ++ help_keywords,
        strIn k (pyStrip (pyLower q)) = false) :
    classify q = Route.data_query ∧
    (∀ q' : String, classify q' = Route.data_query ∨
        classify q' = Route.schema_request ∨
        classify q' = Route.help_request) := by
  have hs : (schema_keywords.any fun k => strIn k (pyStrip (pyLower q))) = false := by
    rw [List.any_eq_false]
    intro k hk
    simp [h k (List.mem_append_left _ hk)]
  have hh : (help_keywords.any fun k => strIn k (pyStrip (pyLower q))) = false := by
    rw [List.any_eq_false]
    intro k hk
    simp [h k (List.mem_append_right _ hk)]
  refine ⟨?_, ?_⟩
  · unfold classify
    simp [hs, hh]
  · intro q'
    unfold classify
    by_cases h1 : (schema_keywords.any fun k => strIn k (pyStrip (pyLower q'))) = true
    · simp [h1]
    · by_cases h2 : (help_keywords.any fun k => strIn k (pyStrip (pyLower q'))) = true
      · simp [h1, h2]
      · simp [h1, h2]

/-- Witness for C6: a question with no schema and no help keyword. -/
theorem classify_total_and_default_witness :
    (∀ k ∈ schema_keywords ++ help_keywords,
        strIn k (pyStrip (pyLower "top 5 customers by data volume")) = false) ∧
    classify "top 5 customers by data volume" = Route.data_query :=
  ⟨by decide,
   (classify_total_and_default "top 5 customers by data volume" (by decide)).1⟩

/-- C10: a question with no schema keyword but containing a help keyword —
in particular a bare "?" anywhere in the text — is classified HELP_REQUEST,
and the graph then routes it straight to the response formatter, never
entering the SQL pipeline (whose entry node is agent_intent_analysis). -/
theorem classify_help_keyword_shortcut (q : String)
    (hns : ∀ k ∈ schema_keywords, strIn k (pyStrip (pyLower q)) = false)
    (hh : ∃ k ∈ help_keywords, strIn k (pyStrip (pyLower q)) = true) :
    classify q = Route.help_request ∧
    route_target (classify q) = "format_response" ∧
    route_target (classify q) ≠ "agent_intent_analysis" := by
  have hc : classify q = Route.help_request := by
    have hs : (schema_keywords.any fun k => strIn k (pyStrip (pyLower q))) = false := by
      rw [List.any_eq_false]
      intro k hk
      simp [hns k hk]
    unfold classify
    simp [hs, List.any_eq_true.mpr hh]
  refine ⟨hc, ?_, ?_⟩ <;> rw [hc] <;> decide

/-- Witness for C10: a data question that merely ends with a question mark. -/
theorem classify_help_keyword_shortcut_witness :
    (∀ k ∈ schema_keywords,
        strIn k (pyStrip (pyLower "how much data was used last week?")) = false) ∧
    classify "how much data was used last week?" = Route.help_request :=
  ⟨by decide,
   (classify_help_keyword_shortcut "how much data was used last week?"
      (by decide) ⟨"?", by decide, by decide⟩).1⟩

/-! ### config/schemas.py — TABLE_SCHEMAS -/

/-- One column entry of a table schema (config/schemas.py). -/
structure ColumnInfo where
  type : String
  description : String
deriving DecidableEq, Repr

/-- One table entry of `TABLE_SCHEMAS` (config/schemas.py). -/
structure TableSchemaInfo where
  description : Option String
  columns : List (String × ColumnInfo)
deriving DecidableEq, Repr

/-- `TABLE_SCHEMAS` (config/schemas.py, lines 8-149): the static schema
catalog — table name, description and columns (name, type, description). -/
def TABLE_SCHEMAS : List (String × TableSchemaInfo) :=
  [("RM_AGGREGATED_DATA",
    { description :=
        some "Main aggregated data table containing communication session records",
      columns :=
        [("AP_ID", ⟨"UInt32", "Technical identifier of the line"⟩),
         ("PARTY_ID", ⟨"UInt32", "Technical identifier of the client"⟩),
         ("PDP_CONNECTION_ID",
          ⟨"UInt32", "Technical identifier of the DATA session"⟩),
         ("RECORD_OPENING_TIME",
          ⟨"DateTime('Europe/Paris')", "Start date of the communication ticket"⟩),
         ("RECORD_CLOSING_TIME",
          ⟨"DateTime('Europe/Paris')", "End date of the communication ticket"⟩),
         ("UPLOAD", ⟨"Int32", "Upload volume in bytes"⟩),
         ("DOWNLOAD", ⟨"Int32", "Download volume in bytes"⟩),
         ("DURATION", ⟨"Int32", "Duration in minutes (maximum 15 minutes)"⟩),
         ("PLMN", ⟨"LowCardinality(String)", "Mobile operator code"⟩),
         ("OFFER_CODE",
          ⟨"LowCardinality(String)", "Tariff offer code of the line"⟩),
         ("SEQUENCE_NUMBER",
          ⟨"Int32", "Sequential number of the ticket in the DATA session"⟩),
         ("CONNECTION_STATUS",
          ⟨"FixedString(1)", "P: Partial (intermediate ticket), F: Final (final ticket)"⟩),
         ("IP_V4_ADDRESS", ⟨"String", "IPv4 address of the communicating device"⟩),
         ("IP_V6_ADDRESS", ⟨"String", "IPv6 address of the communicating device"⟩),
         ("IP_ADDRESS_TYPE",
          ⟨"FixedString(1)", "IP address type: 1 (IPv4), 2 (IPv6), 3 (IPv4 or IPv6)"⟩),
         ("IMEI", ⟨"String", "Identifier of the communicating device"⟩),
         ("IMSI",
          ⟨"UInt64", "SIM card identifier contained in the communicating device"⟩),
         ("MSISDN", ⟨"String", "Phone number of the line"⟩),
         ("APN", ⟨"String", "Access Point Name"⟩),
         ("CELL_ID",
          ⟨"FixedString(8)", "Technical identifier of the antenna through which communication passed"⟩),
         ("TICKET_GENERATION",
          ⟨"LowCardinality(String)", "Generation type (2G, 3G, 4G, NBIOT, LTEM, etc.)"⟩)] }),
   ("PLMN",
    { description := some "Mobile operator information table",
      columns :=
        [("PLMN", ⟨"String", "PLMN code"⟩),
         ("PROVIDER", ⟨"String", "Operator name"⟩),
         ("COUNTRY_ISO3", ⟨"String", "ISO3 country code"⟩)] }),
   ("CELL",
    { description := some "Cell tower/antenna information table",
      columns :=
        [("CELL_ID", ⟨"FixedString(8)", "Antenna identifier"⟩),
         ("PLMN", ⟨"String", "PLMN code"⟩),
         ("LONGITUDE", ⟨"Decimal(19,16)", "GPS longitude coordinate"⟩),
         ("LATITUDE", ⟨"Decimal(19,16)", "GPS latitude coordinate"⟩)] }),
   ("CUSTOMER",
    { description := some "Customer information table",
      columns :=
        [("PARTY_ID", ⟨"UInt32", "Technical identifier of the client"⟩),
         ("NAME", ⟨"String", "Customer name"⟩)] })]

/-- `list(TABLE_SCHEMAS.keys())`. -/
def table_schema_keys : List String := TABLE_SCHEMAS.map (·.1)

/-- `TABLE_SCHEMAS.get(name)` (dict lookup). -/
def table_schema_get (name : String) : Option TableSchemaInfo :=
  (TABLE_SCHEMAS.find? (fun e => e.1 == name)).map (·.2)

example : table_schema_keys = ["RM_AGGREGATED_DATA", "PLMN", "CELL", "CUSTOMER"] := by decide

/-! ### tools/smart_intent_analyzer_tool.py -/

/-- One entry of `join_analysis.required_joins` in the LLM's JSON answer. -/
structure JoinSpec where
  from_table : String
  to_table : String
  join_condition : String
  purpose : String
  join_type : String
deriving DecidableEq, Repr

/-- The fields of the parsed LLM analysis that
`_validate_and_enhance_analysis` and `_calculate_confidence` read
(`language_confidence`, `intent_analysis.intent_confidence`,
`table_analysis.required_tables`, `join_analysis.required_joins`).
Missing JSON keys are `none` / `[]`. -/
structure ParsedAnalysis where
  language_confidence : Option ℚ := none
  intent_confidence : Option ℚ := none
  required_tables : List String := []
  required_joins : List JoinSpec := []
deriving DecidableEq, Repr

/-- The analysis record returned by `SmartIntentAnalyzerTool._run`. -/
structure AnalysisRecord where
  success : Bool
  required_tables : List String := []
  required_joins : List JoinSpec := []
  overall_confidence : Option ℚ := none
  error : Option String := none
deriving DecidableEq, Repr

/-- Table validation loop of `_validate_and_enhance_analysis` (lines
282-292): keep the proposed tables that exist in TABLE_SCHEMAS; if none
remain, substitute the fallback `["RM_AGGREGATED_DATA"]`. -/
def validate_required_tables (required_tables : List String) : List String :=
  let valid_tables := required_tables.filter
    (fun t => table_schema_keys.contains t)
  if valid_tables = [] then ["RM_AGGREGATED_DATA"] else valid_tables

/-- Join validation loop of `_validate_and_enhance_analysis` (lines
295-303): keep only joins whose two tables exist in TABLE_SCHEMAS. -/
def validate_required_joins (required_joins : List JoinSpec) : List JoinSpec :=
  required_joins.filter
    (fun j => table_schema_keys.contains j.from_table &&
      table_schema_keys.contains j.to_table)

/-- `_calculate_confidence` (lines 310-327): the mean of the reported
language confidence (default 0.5), the reported intent confidence
(default 0.5), and the valid-table ratio of the `required_tables` the
analysis carries when it is called — which, in `_run`, is the already
validated list. -/
def calculate_confidence (p : ParsedAnalysis)
    (required_tables : List String) : ℚ :=
  let lang_conf := p.language_confidence.getD (1/2)
  let intent_conf := p.intent_confidence.getD (1/2)
  let valid_table_ratio :=
    ((required_tables.filter (fun t => table_schema_keys.contains t)).length : ℚ) /
      ((max required_tables.length 1 : ℕ) : ℚ)
  (lang_conf + intent_conf + valid_table_ratio) / 3

/-- `SmartIntentAnalyzerTool._run`: on a successful LLM call the parsed
analysis is validated and enhanced and the tool reports success; an LLM /
parsing exception yields a failure record.  The external LLM call is the
`llm` parameter. -/
def smart_intent_analyzer_run (llm : Except String ParsedAnalysis) :
    AnalysisRecord :=
  match llm with
  | .error e => { success := false, error := some e }
  | .ok p =>
    let valid_tables := validate_required_tables p.required_tables
    let valid_joins := validate_required_joins p.required_joins
    { success := true,
      required_tables := valid_tables,
      required_joins := valid_joins,
      overall_confidence := some (calculate_confidence p valid_tables) }

/-! ### tools/smart_sql_generator_tool.py -/

/-- `dangerous_keywords` from `_clean_and_validate_sql` (line 210). -/
def dangerous_keywords : List String :=
  ["DROP", "DELETE", "UPDATE", "INSERT", "ALTER", "CREATE", "TRUNCATE"]

/-- Split on the newline character, as Python `s.split('\n')`. -/
def splitOnChar (sep : Char) : List Char → List (List Char)
  | [] => [[]]
  | c :: rest =>
    let r := splitOnChar sep rest
    if c = sep then [] :: r
    else
      match r with
      | [] => [[c]]
      | g :: gs => (c :: g) :: gs

/-- Python `s.split('\n')`. -/
def pySplitNl (s : String) : List String :=
  (splitOnChar '\n' s.data).map String.mk

/-- The cleaning part of `_clean_and_validate_sql` (lines 195-203): strip a
markdown code fence (drop the first and last line when there are more than
two), then remove trailing semicolons and surrounding whitespace. -/
def clean_sql_step (sql_query : String) : String :=
  let sql1 :=
    if pyStartsWith sql_query "```" then
      let lines := pySplitNl sql_query
      if lines.length > 2 then pyJoin "\n" ((lines.drop 1).dropLast)
      else sql_query
    else sql_query
  pyStrip (rstripChar ';' sql1)

/-- `_clean_and_validate_sql` (lines 195-216): after cleaning, the
statement must start with SELECT (case-insensitively, after stripping) and
must not contain any denylisted keyword in its uppercased text; otherwise a
ValueError is raised (modelled as `.error`). -/
def clean_and_validate_sql (sql_query : String) : Except String String :=
  let cleaned := clean_sql_step sql_query
  if pyStartsWith (pyStrip (pyUpper cleaned)) "SELECT" then
    match dangerous_keywords.find? (fun k => strIn k (pyUpper cleaned)) with
    | some keyword => .error ("Query contains dangerous keyword: " ++ keyword)
    | none => .ok cleaned
  else
    .error "Generated query must be a SELECT statement"

/-- `sql_metadata` computed by `_extract_sql_metadata` (lines 218-265). -/
structure SqlMetadata where
  query_type : String
  estimated_complexity : String
  tables_used : List String
  joins_detected : List String
  aggregations_used : List String
  has_limit : Bool
  has_time_filter : Bool
deriving DecidableEq, Repr

/-- `_extract_sql_metadata` (lines 218-265): pattern-derived metadata of
the cleaned SQL text. -/
def extract_sql_metadata (sql_query : String) : SqlMetadata :=
  let sql_upper := pyUpper sql_query
  let tables_used := table_schema_keys.filter (fun t => strIn t sql_upper)
  let joins_detected :=
    if strIn "JOIN" sql_upper then ["JOIN detected"] else []
  let aggregations_used :=
    ["COUNT", "SUM", "AVG", "MAX", "MIN"].filter (fun f => strIn f sql_upper)
  let complexity_score :=
    tables_used.length + joins_detected.length * 2 + aggregations_used.length
  { query_type := "SELECT",
    estimated_complexity :=
      if complexity_score ≤ 2 then "simple"
      else if complexity_score ≤ 5 then "medium"
      else "complex",
    tables_used := tables_used,
    joins_detected := joins_detected,
    aggregations_used := aggregations_used,
    has_limit := strIn "LIMIT" sql_upper,
    has_time_filter :=
      strIn "RECORD_OPENING_TIME" sql_upper || strIn "INTERVAL" sql_upper }

/-- The record returned by `SmartSqlGeneratorTool._run`. -/
structure SqlResult where
  success : Bool
  sql_query : Option String := none
  sql_metadata : Option SqlMetadata := none
  intent_confidence : Option ℚ := none
  error : Option String := none
  message : String := ""
deriving DecidableEq, Repr

/-- `SmartSqlGeneratorTool._run` (lines 26-59): the LLM answer (already
`.strip()`ed by `_generate_targeted_sql`) is cleaned and validated; a
validation ValueError or an LLM exception becomes a failure record.
`overall_confidence` is the value from the intent analysis
(`intent_analysis.get('overall_confidence', 0.8)`). -/
def smart_sql_generator_run (overall_confidence : Option ℚ)
    (llm : Except String String) : SqlResult :=
  match llm with
  | .error e =>
    { success := false, error := some e,
      message := "Smart SQL generation failed: " ++ e }
  | .ok response =>
    match clean_and_validate_sql (pyStrip response) with
    | .error e =>
      { success := false, error := some e,
        message := "Smart SQL generation failed: " ++ e }
    | .ok cleaned_sql =>
      { success := true,
        sql_query := some cleaned_sql,
        sql_metadata := some (extract_sql_metadata cleaned_sql),
        intent_confidence := some (overall_confidence.getD (4/5)),
        message := "Smart SQL generation completed successfully" }

/-! ### Result records shared by executor, exporter and formatter -/

/-- A Python cell value as it appears in query result rows. -/
inductive PyVal
  | none
  | int (n : ℤ)
  | float (q : ℚ)
  | str (s : String)
deriving DecidableEq, Repr

/-- Python `isinstance(v, (int, float))`. -/
def PyVal.isNumeric : PyVal → Bool
  | .int _ => true
  | .float _ => true
  | _ => false

/-- The numeric value of an int/float cell (0 otherwise; only used under
an `isNumeric` guard, as in the sources). -/
def PyVal.toRat : PyVal → ℚ
  | .int n => (n : ℚ)
  | .float q => q
  | _ => 0

/-- Python `str(v)` for the cell values above. -/
def PyVal.pyStr : PyVal → String
  | .none => "None"
  | .int n => toString n
  | .float q => toString q
  | .str s => s

/-- The `result` sub-dict of a successful query execution:
`{"columns": [...], "data": [...], "row_count": n}`. -/
structure QueryData where
  columns : List String
  data : List (List PyVal)
  row_count : Nat
deriving DecidableEq, Repr

/-- The `execution_result` dict flowing through the pipeline.  Keys that a
given stage does not set are `none` (Python: absent). -/
structure ResultRecord where
  success : Bool
  result : Option QueryData := none
  executed_query : Option String := none
  error : Option String := none
  suggestion : Option String := none
  tables : Option (List (String × String)) := none
  tableSchema : Option TableSchemaInfo := none
  table_name : Option String := none
  available_tables : List String := []
  help_content : Option String := none
  message : Option String := none
deriving DecidableEq, Repr

/-- The `csv_export_result` dict produced by the CSV export stage. -/
structure CsvResult where
  success : Bool
  filename : Option String := none
  file_path : Option String := none
  size_human : Option String := none
  error : Option String := none
  message : Option String := none
deriving DecidableEq, Repr

/-- The `visualization_result` dict (modern_visualization_tool.py); only
the fields the response formatter reads. -/
structure VizResult where
  success : Bool
  visualization_type : String := "chart"
  filename : Option String := none
  size_human : Option String := none
  html_file : Option String := none
deriving DecidableEq, Repr

/-! ### main.py — ClickHouseAgent pipeline steps

Each step takes the record produced by the previous stage; the boolean of
each returned pair records whether the stage's tool was actually invoked
(the `_run` call happened). External calls are parameters. -/

/-- `ClickHouseAgent._generate_sql` (main.py lines 278-314): the SQL
generator tool is invoked only when the intent analysis succeeded;
otherwise a failure record is stored and the generator is never called. -/
def generate_sql_step (analysis_result : AnalysisRecord)
    (llm : Except String String) : SqlResult × Bool :=
  if analysis_result.success = false then
    ({ success := false,
       error := some "Intent analysis failed",
       message := "Cannot generate SQL without intent analysis" }, false)
  else
    (smart_sql_generator_run analysis_result.overall_confidence llm, true)

/-- `ClickHouseAgent._execute_query` (main.py lines 405-437): the query
execution tool is invoked only when SQL generation succeeded; otherwise a
failure record is stored and the executor is never called.  The executor
itself (tools/query_execution_tool.py, not part of this tree) is the
`executor` parameter. -/
def execute_query_step (sql_result : SqlResult)
    (executor : String → ResultRecord) : ResultRecord × Bool :=
  if sql_result.success = false then
    ({ success := false,
       error := some "SQL generation failed",
       message := some "Cannot execute query - SQL generation failed" }, false)
  else
    (executor (sql_result.sql_query.getD ""), true)

/-- Python truthiness of `execution_result.get("result", {}).get("data", [])`. -/
def ResultRecord.hasData (er : ResultRecord) : Bool :=
  match er.result with
  | Option.none => false
  | some qd => !qd.data.isEmpty

/-- `ClickHouseAgent._export_csv` (main.py lines 544-570): the CSV export
tool is invoked only when execution succeeded and returned at least one
row; otherwise a skip record is stored.  The exporter
(tools/csv_export_tool.py, not part of this tree) is the `exporter`
parameter; a raised exception in it is not caught here, but the claims
below only concern the not-invoked branch and the stored records. -/
def export_csv_step (execution_result : ResultRecord)
    (exporter : CsvResult) : CsvResult × Bool :=
  if execution_result.success && execution_result.hasData then
    (exporter, true)
  else
    ({ success := false,
       message := some "No data available for CSV export" }, false)

/-- C1: if, after cleaning, the generated statement does not start with
SELECT or its uppercased text contains a denylisted keyword, the SQL
generation stage returns a failure record and the query-execution tool is
never invoked. -/
theorem denylisted_sql_rejected_never_executed (response : String)
    (h : pyStartsWith (pyStrip (pyUpper (clean_sql_step (pyStrip response))))
          "SELECT" = false ∨
        ∃ k ∈ dangerous_keywords,
          strIn k (pyUpper (clean_sql_step (pyStrip response))) = true) :
    ∀ (oc : Option ℚ) (executor : String → ResultRecord),
      (smart_sql_generator_run oc (.ok response)).success = false ∧
      (execute_query_step (smart_sql_generator_run oc (.ok response))
          executor).2 = false := by
  have hv : ∃ e, clean_and_validate_sql (pyStrip response) = Except.error e := by
    unfold clean_and_validate_sql
    rcases h with h | h
    · exact ⟨"Generated query must be a SELECT statement", by simp [h]⟩
    · by_cases hb : pyStartsWith
          (pyStrip (pyUpper (clean_sql_step (pyStrip response)))) "SELECT" = true
      · have hf : (dangerous_keywords.find?
            (fun k => strIn k (pyUpper (clean_sql_step (pyStrip response))))).isSome := by
          rw [List.find?_isSome]
          exact h
        cases hfind : dangerous_keywords.find?
            (fun k => strIn k (pyUpper (clean_sql_step (pyStrip response)))) with
        | none => rw [hfind] at hf; simp at hf
        | some keyword =>
          exact ⟨"Query contains dangerous keyword: " ++ keyword,
            by simp [hb, hfind]⟩
      · exact ⟨"Generated query must be a SELECT statement", by simp [hb]⟩
  intro oc executor
  obtain ⟨e, he⟩ := hv
  have hrun : (smart_sql_generator_run oc (.ok response)).success = false := by
    simp [smart_sql_generator_run, he]
  exact ⟨hrun, by simp [execute_query_step, hrun]⟩

/-- Witness for C1: a fenced statement that starts with SELECT but smuggles
a denylisted DROP; generation fails and the executor is not invoked. -/
theorem denylisted_sql_rejected_never_executed_witness :
    (∃ k ∈ dangerous_keywords,
        strIn k (pyUpper (clean_sql_step
          (pyStrip "SELECT * FROM CUSTOMER; DROP TABLE CUSTOMER"))) = true) ∧
    (smart_sql_generator_run Option.none
        (.ok "SELECT * FROM CUSTOMER; DROP TABLE CUSTOMER")).success = false ∧
    (execute_query_step
        (smart_sql_generator_run Option.none
          (.ok "SELECT * FROM CUSTOMER; DROP TABLE CUSTOMER"))
        (fun _ => { success := true })).2 = false :=
  ⟨⟨"DROP", by decide, by decide⟩,
   denylisted_sql_rejected_never_executed
     "SELECT * FROM CUSTOMER; DROP TABLE CUSTOMER"
     (Or.inr ⟨"DROP", by decide, by decide⟩) Option.none _⟩

/-- A parsed analysis whose every proposed table is hallucinated. -/
def hallucinated_parse : ParsedAnalysis :=
  { language_confidence := some 1, intent_confidence := some 1,
    required_tables := ["FAKE_TABLE"] }

/-- C2 counterexample: when none of the proposed tables exists, the intent
analysis stage does NOT fail — it substitutes the fallback table, reports
success, and the SQL generator IS invoked. -/
theorem intent_all_tables_invalid_counterexample :
    (smart_intent_analyzer_run (.ok hallucinated_parse)).success = true ∧
    (smart_intent_analyzer_run (.ok hallucinated_parse)).required_tables =
      ["RM_AGGREGATED_DATA"] ∧
    (generate_sql_step (smart_intent_analyzer_run (.ok hallucinated_parse))
        (.ok "SELECT 1")).2 = true := by
  refine ⟨rfl, by decide, ?_⟩
  simp [generate_sql_step, smart_intent_analyzer_run]

/-- C2 amended: for every parsed analysis none of whose proposed tables
exists in the schema, the stage substitutes the fallback table
RM_AGGREGATED_DATA, still reports success, and SQL synthesis is invoked. -/
theorem intent_all_tables_invalid_fallback (p : ParsedAnalysis)
    (h : ∀ t ∈ p.required_tables, t ∉ table_schema_keys) :
    (smart_intent_analyzer_run (.ok p)).success = true ∧
    (smart_intent_analyzer_run (.ok p)).required_tables =
      ["RM_AGGREGATED_DATA"] ∧
    ∀ llm, (generate_sql_step (smart_intent_analyzer_run (.ok p)) llm).2 = true := by
  have hfilter :
      p.required_tables.filter (fun t => table_schema_keys.contains t) = [] :=
    List.filter_eq_nil_iff.mpr (fun t ht => by simp [h t ht])
  have hval : validate_required_tables p.required_tables =
      ["RM_AGGREGATED_DATA"] := by
    unfold validate_required_tables
    simp only [hfilter]
    simp
  refine ⟨rfl, by simp [smart_intent_analyzer_run, hval], ?_⟩
  intro llm
  simp [generate_sql_step, smart_intent_analyzer_run]

/-- Witness for the amended C2: one hallucinated table. -/
theorem intent_all_tables_invalid_fallback_witness :
    (∀ t ∈ ({ required_tables := ["GHOST_TABLE"] } : ParsedAnalysis).required_tables,
        t ∉ table_schema_keys) ∧
    (smart_intent_analyzer_run
        (.ok { required_tables := ["GHOST_TABLE"] })).required_tables =
      ["RM_AGGREGATED_DATA"] :=
  ⟨by decide,
   (intent_all_tables_invalid_fallback
      { required_tables := ["GHOST_TABLE"] } (by decide)).2.1⟩

/-- A parsed analysis whose reported language confidence exceeds 1. -/
def overconfident_parse : ParsedAnalysis :=
  { language_confidence := some 2, intent_confidence := some 1,
    required_tables := ["PLMN"] }

/-- C9 counterexample: the code never clamps the LLM-reported confidences,
so `overall_confidence` can leave [0,1] — here (2 + 1 + 1)/3 = 4/3 > 1. -/
theorem overall_confidence_above_one_counterexample :
    (smart_intent_analyzer_run (.ok overconfident_parse)).overall_confidence =
      some (4/3) ∧ (1 : ℚ) < 4/3 := by
  have hv : validate_required_tables overconfident_parse.required_tables =
      ["PLMN"] := by decide
  have hlen : (["PLMN"].filter (fun t => table_schema_keys.contains t)).length
      = 1 := by decide
  refine ⟨?_, by norm_num⟩
  simp only [smart_intent_analyzer_run, hv, Option.some_inj]
  unfold calculate_confidence
  rw [hlen]
  norm_num [overconfident_parse]

/-- The success flag of the SQL generator output does not depend on the
confidence it is handed. -/
theorem smart_sql_generator_run_success_eq (c₁ c₂ : Option ℚ)
    (llm : Except String String) :
    (smart_sql_generator_run c₁ llm).success =
      (smart_sql_generator_run c₂ llm).success := by
  unfold smart_sql_generator_run
  cases llm with
  | error e => rfl
  | ok r => cases hv : clean_and_validate_sql (pyStrip r) <;> simp [hv]

/-- After validation, every table in the stored list exists in the schema
and the list is non-empty, so the valid-table ratio recomputed on it is 1. -/
theorem validate_required_tables_ratio_one (ts : List String) :
    ((validate_required_tables ts).filter
        (fun t => table_schema_keys.contains t)).length =
      (validate_required_tables ts).length ∧
    validate_required_tables ts ≠ [] := by
  unfold validate_required_tables
  by_cases hnil : ts.filter (fun t => table_schema_keys.contains t) = []
  · simp only [hnil]
    exact ⟨by decide, by decide⟩
  · simp only [if_neg hnil]
    refine ⟨?_, hnil⟩
    rw [List.filter_filter]
    simp only [Bool.and_self]

/-- C9 amended: `overall_confidence` equals (language_confidence +
intent_confidence + 1)/3 — the valid-table ratio is recomputed on the
already-validated table list and is therefore always 1 — it lies in [0,1]
whenever the analyzer-reported confidences do, and neither the decision to
invoke the SQL generator nor the decision to invoke the query executor
depends on it. -/
theorem overall_confidence_advisory (p : ParsedAnalysis)
    (h1 : 0 ≤ p.language_confidence.getD (1/2))
    (h2 : p.language_confidence.getD (1/2) ≤ 1)
    (h3 : 0 ≤ p.intent_confidence.getD (1/2))
    (h4 : p.intent_confidence.getD (1/2) ≤ 1) :
    (smart_intent_analyzer_run (.ok p)).overall_confidence =
      some ((p.language_confidence.getD (1/2) +
        p.intent_confidence.getD (1/2) + 1) / 3) ∧
    (∀ c, (smart_intent_analyzer_run (.ok p)).overall_confidence = some c →
        0 ≤ c ∧ c ≤ 1) ∧
    (∀ (ar : AnalysisRecord) (c₁ c₂ : Option ℚ) (llm : Except String String),
        (generate_sql_step { ar with overall_confidence := c₁ } llm).2 =
          (generate_sql_step { ar with overall_confidence := c₂ } llm).2) ∧
    (∀ (ar : AnalysisRecord) (c₁ c₂ : Option ℚ) (llm : Except String String)
        (executor : String → ResultRecord),
        (execute_query_step
            (generate_sql_step { ar with overall_confidence := c₁ } llm).1
            executor).2 =
          (execute_query_step
            (generate_sql_step { ar with overall_confidence := c₂ } llm).1
            executor).2) := by
  obtain ⟨hlen, hne⟩ := validate_required_tables_ratio_one p.required_tables
  have hpos : 0 < (validate_required_tables p.required_tables).length :=
    List.length_pos.mpr hne
  have hconf :
      calculate_confidence p (validate_required_tables p.required_tables) =
        (p.language_confidence.getD (1/2) +
          p.intent_confidence.getD (1/2) + 1) / 3 := by
    unfold calculate_confidence
    rw [hlen, Nat.max_eq_left hpos,
      div_self (Nat.cast_ne_zero.mpr (Nat.pos_iff_ne_zero.mp hpos))]
  have hfirst : (smart_intent_analyzer_run (.ok p)).overall_confidence =
      some ((p.language_confidence.getD (1/2) +
        p.intent_confidence.getD (1/2) + 1) / 3) := by
    simp [smart_intent_analyzer_run, hconf]
  refine ⟨hfirst, ?_, ?_, ?_⟩
  · intro c hc
    rw [hfirst] at hc
    obtain rfl := Option.some_inj.mp hc.symm
    constructor <;> linarith
  · intro ar c₁ c₂ llm
    cases har : ar.success <;> simp [generate_sql_step, har]
  · intro ar c₁ c₂ llm executor
    have hs := smart_sql_generator_run_success_eq c₁ c₂ llm
    cases har : ar.success
    · simp [execute_query_step, generate_sql_step, har]
    · have e₁ : (generate_sql_step { ar with overall_confidence := c₁ } llm).1
          = smart_sql_generator_run c₁ llm := by
        simp [generate_sql_step, har]
      have e₂ : (generate_sql_step { ar with overall_confidence := c₂ } llm).1
          = smart_sql_generator_run c₂ llm := by
        simp [generate_sql_step, har]
      rw [har] at e₁ e₂
      rw [e₁, e₂]
      unfold execute_query_step
      rw [hs]
      cases h2 : (smart_sql_generator_run c₂ llm).success <;> simp [h2]

/-- Witness for the amended C9: in-range reported confidences 0.9 and 0.8
give overall confidence (0.9 + 0.8 + 1)/3 = 0.9. -/
theorem overall_confidence_advisory_witness :
    (smart_intent_analyzer_run
        (.ok ⟨some (9/10), some (4/5), ["PLMN"], []⟩)).overall_confidence =
      some ((9/10 + 4/5 + 1) / 3) := by
  have h := (overall_confidence_advisory ⟨some (9/10), some (4/5), ["PLMN"], []⟩
    (by norm_num) (by norm_num) (by norm_num) (by norm_num)).1
  simpa using h

/-! ### tools/response_formatter_tool.py — value and number formatting -/

/-- Round `num/den` (with `den > 0`) half-to-even, as Python's `round` and
`format` do.  Implemented on the raw numerator/denominator so the kernel
can evaluate it. -/
def pyRoundNumDen (num den : ℤ) : ℤ :=
  let f := num.ediv den
  let r2 := 2 * (num - f * den)
  if r2 < den then f
  else if den < r2 then f + 1
  else if f % 2 = 0 then f else f + 1

/-- Python `int(q)`: truncation toward zero. -/
def pyInt (q : ℚ) : ℤ :=
  q.num.tdiv (q.den : ℤ)

/-- Python `f"{num/den:.1f}"`: one decimal digit, half-to-even. -/
def fmtFixed1 (num den : ℤ) : String :=
  let n := pyRoundNumDen (10 * num) den
  let m := n.natAbs
  (if n < 0 then "-" else "") ++ toString (m / 10) ++ "." ++ toString (m % 10)

/-- Python `f"{q:,.0f}"`: rounded to an integer with comma grouping. -/
def fmtComma0 (q : ℚ) : String :=
  let n := pyRoundNumDen q.num (q.den : ℤ)
  (if n < 0 then "-" else "") ++ groupDigits n.natAbs

/-- `_format_number_clean` (lines 304-314): years verbatim, then K/M
suffixes with one decimal, else comma-grouped integer. -/
def format_number_clean (value : ℚ) : String :=
  if 1900 ≤ value ∧ value ≤ 2100 then toString (pyInt value)
  else if 1000000 ≤ |value| then
    fmtFixed1 value.num ((value.den : ℤ) * 1000000) ++ "M"
  else if 1000 ≤ |value| then
    fmtFixed1 value.num ((value.den : ℤ) * 1000) ++ "K"
  else fmtComma0 value

/-- `_format_cell_value_clean` (lines 289-302): None dash, year-range
numbers verbatim, other numbers via `_format_number_clean`, strings as-is
(datetime cells are outside the modelled value universe). -/
def format_cell_value_clean (v : PyVal) : String :=
  match v with
  | .none => "—"
  | .int n =>
    if 1900 ≤ n ∧ n ≤ 2100 then toString n
    else format_number_clean (n : ℚ)
  | .float q =>
    if 1900 ≤ q ∧ q ≤ 2100 then toString (pyInt q)
    else format_number_clean q
  | .str s => s

example : format_cell_value_clean (.int 5) = "5" := by decide
example : format_cell_value_clean (.int 1999) = "1999" := by decide
example : format_cell_value_clean (.int 2500000) = "2.5M" := by decide
example : format_cell_value_clean (.int 12345) = "12.3K" := by decide
example : format_cell_value_clean .none = "—" := by decide

/-! ### tools/response_formatter_tool.py — sections of the query response -/

/-- Python `sum(l)` over the numeric values of a column. -/
def ratSum (l : List ℚ) : ℚ := l.foldl (· + ·) 0

/-- Python `min(l)` over a non-empty list (0 on empty, never used there). -/
def listMinQ : List ℚ → ℚ
  | [] => 0
  | x :: xs => xs.foldl min x

/-- Python `max(l)` over a non-empty list (0 on empty, never used there). -/
def listMaxQ : List ℚ → ℚ
  | [] => 0
  | x :: xs => xs.foldl max x

/-- The `numeric_totals` accumulated by the "total/sum/volume" branch of
`_generate_quick_summary` (lines 124-133): per column after the first, the
formatted sum of its numeric values, kept only when the column has any. -/
def quick_summary_numeric_totals (qd : QueryData) : List String :=
  ((List.range qd.columns.length).drop 1).filterMap (fun i =>
    let vals := qd.data.filterMap (fun row =>
      match row.get? i with
      | some v => if v.isNumeric then some v.toRat else Option.none
      | Option.none => Option.none)
    if vals.isEmpty then Option.none
    else some (format_cell_value_clean (.float (ratSum vals))))

/-- The keyword-driven early `return`s of `_generate_quick_summary`
(lines 108-136): `none` means control fell through to the default
return. -/
def quick_summary_branch (qd : QueryData) (question_lower : String) :
    Option String :=
  if ["top", "highest", "best", "most"].any
      (fun w => strIn w question_lower) then
    match qd.data.head? with
    | some first_row =>
      match first_row with
      | v₀ :: v₁ :: _ =>
        some ("Top result: **" ++ format_cell_value_clean v₀ ++
          "** with **" ++ format_cell_value_clean v₁ ++ "**. Found " ++
          groupDigits qd.data.length ++ " total records.")
      | _ => Option.none
    | Option.none => Option.none
  else if ["count", "number", "how many"].any
      (fun w => strIn w question_lower) then
    if qd.data.length = 1 then
      match qd.data.head?.bind List.head? with
      | some v₀ =>
        some ("Total count: **" ++ format_cell_value_clean v₀ ++ "**")
      | Option.none => Option.none
    else Option.none
  else if ["total", "sum", "volume"].any
      (fun w => strIn w question_lower) then
    if 2 ≤ qd.columns.length then
      match (quick_summary_numeric_totals qd).head? with
      | some t =>
        some ("Total across " ++ groupDigits qd.data.length ++
          " records: **" ++ t ++ "**")
      | Option.none => Option.none
    else Option.none
  else Option.none

/-- `_generate_quick_summary` (lines 94-143): one-line summary chosen by
question keywords, with the default "Found … records" fallback. -/
def generate_quick_summary (qd : QueryData) (user_question : String) : String :=
  if qd.data.isEmpty || qd.columns.isEmpty then ""
  else
    match quick_summary_branch qd (pyLower user_question) with
    | some s => s
    | Option.none =>
      "Found **" ++ groupDigits qd.data.length ++ " records** with **" ++
        toString qd.columns.length ++ "** columns."

/-- One cell of the preview table (`_format_data_preview_table` inner
loop): missing cells render as "", values longer than 25 characters are
truncated to 22 plus "...". -/
def preview_cell (row : List PyVal) (i : Nat) : String :=
  let value := format_cell_value_clean (row.getD i (.str ""))
  if 25 < value.length then String.mk (value.data.take 22) ++ "..." else value

/-- One data row of the preview table (first 6 columns only). -/
def preview_row_line (columns : List String) (row : List PyVal) : String :=
  "| " ++ pyJoin " | " ((List.range (min columns.length 6)).map
    (preview_cell row)) ++ " |"

/-- The header line of the preview table. -/
def preview_header_line (columns : List String) : String :=
  "| " ++ pyJoin " | " ((columns.take 6).map (fun col => "**" ++ col ++ "**"))
    ++ " |"

/-- The separator line of the preview table. -/
def preview_sep_line (columns : List String) : String :=
  "| " ++ pyJoin " | " ((columns.take 6).map (fun _ => "---")) ++ " |"

/-- The markdown lines of the preview table: a header, a separator, and
one line per row of `data[:10]`. -/
def preview_table_lines (qd : QueryData) : List String :=
  preview_header_line qd.columns :: preview_sep_line qd.columns ::
    (qd.data.take 10).map (preview_row_line qd.columns)

/-- `_format_data_preview_table` (lines 145-199): the bounded markdown
preview (10 rows, 6 columns) plus row/column count notes. -/
def format_data_preview_table (qd : QueryData) : String :=
  if qd.columns.isEmpty || qd.data.isEmpty then ""
  else
    pyJoin "\n" (preview_table_lines qd) ++
    (if 10 < qd.data.length then
      "\n\n*Showing first 10 of " ++ groupDigits qd.data.length ++
        " total rows*"
    else "\n\n*" ++ groupDigits qd.data.length ++ " rows total*") ++
    (if 6 < qd.columns.length then
      " • *" ++ toString qd.columns.length ++ " columns (showing first 6)*"
    else "")

/-- The numeric values of column `i` (`_generate_key_insights` loop):
cells present, not None, int or float. -/
def numeric_column_values (qd : QueryData) (i : Nat) : List ℚ :=
  qd.data.filterMap (fun row =>
    match row.get? i with
    | some v => if v.isNumeric then some v.toRat else Option.none
    | Option.none => Option.none)

/-- The stringified non-numeric, non-None values of column `i`. -/
def text_column_values (qd : QueryData) (i : Nat) : List String :=
  qd.data.filterMap (fun row =>
    match row.get? i with
    | some PyVal.none => Option.none
    | some v => if v.isNumeric then Option.none else some v.pyStr
    | Option.none => Option.none)

/-- The min/avg/max insight line for a numeric column. -/
def insight_range_line (col : String) (vals : List ℚ) : String :=
  "• **" ++ col ++ ":** Range " ++ format_number_clean (listMinQ vals) ++
    " - " ++ format_number_clean (listMaxQ vals) ++ ", Avg " ++
    format_number_clean (ratSum vals / (vals.length : ℚ))

/-- The per-column insight of `_generate_key_insights`: a min/avg/max line
when the column has at least two numeric values, else a unique-count line
when it has text values, else nothing. -/
def col_insight (qd : QueryData) (i : Nat) (col : String) : Option String :=
  let numeric_values := numeric_column_values qd i
  let text_values := text_column_values qd i
  if 2 ≤ numeric_values.length then
    some (insight_range_line col numeric_values)
  else if !text_values.isEmpty then
    some ("• **" ++ col ++ ":** " ++ toString text_values.dedup.length ++
      " unique values")
  else Option.none

/-- The dataset-size insight line (always first). -/
def size_line (qd : QueryData) : String :=
  "• **Dataset Size:** " ++ groupDigits qd.data.length ++
    " records across " ++ toString qd.columns.length ++ " columns"

/-- The per-column insight lines (first 4 columns only — the loop breaks
at `i >= 4`). -/
def col_insight_lines (qd : QueryData) : List String :=
  (qd.columns.enum.take 4).filterMap (fun ic => col_insight qd ic.1 ic.2)

/-- `data[0][0]`, when it exists. -/
def first_cell (qd : QueryData) : Option PyVal :=
  qd.data.head?.bind List.head?

/-- `data[-1][0]`, when it exists. -/
def last_cell (qd : QueryData) : Option PyVal :=
  qd.data.getLast?.bind List.head?

/-- The "From … to …" insight line. -/
def from_to_line (a b : PyVal) : String :=
  "• **Range:** From " ++ format_cell_value_clean a ++ " to " ++
    format_cell_value_clean b

/-- All insight lines in order, before the `[:4]` truncation. -/
def insight_lines (qd : QueryData) : List String :=
  size_line qd :: col_insight_lines qd ++
    (if 3 ≤ qd.data.length ∧ 2 ≤ qd.columns.length then
      match first_cell qd, last_cell qd with
      | some a, some b => [from_to_line a b]
      | _, _ => []
    else [])

/-- `_generate_key_insights` (lines 201-251): empty for fewer than two
rows; otherwise the first four insight lines joined by newlines.  An
IndexError from `data[0][0]` / `data[-1][0]` on an empty first/last row is
caught by the surrounding `except` and yields "". -/
def generate_key_insights (qd : QueryData) : String :=
  if qd.data.isEmpty || qd.data.length < 2 then ""
  else if 3 ≤ qd.data.length ∧ 2 ≤ qd.columns.length then
    match first_cell qd, last_cell qd with
    | some a, some b =>
      pyJoin "\n"
        ((size_line qd :: col_insight_lines qd ++ [from_to_line a b]).take 4)
    | _, _ => ""
  else
    pyJoin "\n" ((size_line qd :: col_insight_lines qd).take 4)

/-- Python `s.title()` (uppercase each letter that follows a non-letter). -/
def pyTitleGo : Bool → List Char → List Char
  | _, [] => []
  | prevAlpha, c :: rest =>
    (if c.isAlpha then (if prevAlpha then c.toLower else c.toUpper) else c) ::
      pyTitleGo c.isAlpha rest

/-- Python `s.title()`. -/
def pyTitle (s : String) : String := String.mk (pyTitleGo false s.data)

/-- The `files_info` lines accumulated by `_format_files_section`: one for
a successful CSV export, one for a successful visualization. -/
def files_info_lines (csv_result : Option CsvResult)
    (visualization_result : Option VizResult) : List String :=
  (match csv_result with
   | some c =>
     if c.success then
       ["📊 **CSV Export:** `" ++ c.filename.getD "data.csv" ++ "` (" ++
         c.size_human.getD "Unknown" ++ ")"]
     else []
   | Option.none => []) ++
  (match visualization_result with
   | some v =>
     if v.success then
       ["📈 **Interactive " ++ pyTitle v.visualization_type ++
         " Chart:** `" ++ v.filename.getD "chart.html" ++ "` (" ++
         v.size_human.getD "Unknown" ++ ")"]
     else []
   | Option.none => [])

/-- `_format_files_section` (lines 253-273): lines for the CSV export and
the visualization, only for successful results; empty string when there is
nothing to list. -/
def format_files_section (csv_result : Option CsvResult)
    (visualization_result : Option VizResult) : String :=
  if !(files_info_lines csv_result visualization_result).isEmpty then
    "**📁 Generated Files:**\n" ++
      pyJoin "\n" (files_info_lines csv_result visualization_result) ++
      "\n\n*Use the download buttons above to save these files*"
  else ""

/-- Python `s.replace(pat, rep)` for a non-empty pattern (leftmost,
non-overlapping), fuelled by the haystack length so the kernel can
evaluate it. -/
def listReplace : Nat → List Char → List Char → List Char → List Char
  | _, _, _, [] => []
  | 0, _, _, l => l
  | fuel + 1, pat, rep, c :: rest =>
    if listIsPrefix pat (c :: rest) then
      rep ++ listReplace fuel pat rep ((c :: rest).drop pat.length)
    else c :: listReplace fuel pat rep rest

/-- Python `s.replace(pat, rep)`. -/
def pyReplace (s pat rep : String) : String :=
  String.mk (listReplace s.data.length pat.data rep.data s.data)

/-- `re.sub(r',\s*,', ',', s)`: collapse a comma, optional whitespace and
a comma into one comma (leftmost, non-overlapping). -/
def subCommaWsCommaGo : Nat → List Char → List Char
  | _, [] => []
  | 0, l => l
  | fuel + 1, c :: rest =>
    if c = ',' then
      match rest.dropWhile Char.isWhitespace with
      | ',' :: r' => ',' :: subCommaWsCommaGo fuel r'
      | _ => ',' :: subCommaWsCommaGo fuel rest
    else c :: subCommaWsCommaGo fuel rest

/-- `re.sub(r'\s+', ' ', s)`: each maximal whitespace run becomes one
space.  The boolean tracks whether the previous character was whitespace. -/
def collapseWsGo : Bool → List Char → List Char
  | _, [] => []
  | prevWs, c :: rest =>
    if c.isWhitespace then
      if prevWs then collapseWsGo true rest
      else ' ' :: collapseWsGo true rest
    else c :: collapseWsGo false rest

/-- `_clean_sql_for_streamlit` (lines 275-287). -/
def clean_sql_for_streamlit (sql_query : String) : String :=
  let clean_query := pyReplace sql_query "[object Object]" ""
  let clean_query :=
    String.mk (subCommaWsCommaGo clean_query.data.length clean_query.data)
  let clean_query := String.mk (collapseWsGo false clean_query.data)
  let keywords :=
    ["SELECT", "FROM", "JOIN", "WHERE", "GROUP BY", "ORDER BY", "LIMIT",
     "HAVING"]
  let clean_query := keywords.foldl
    (fun acc kw => pyReplace acc (" " ++ kw ++ " ") ("\n" ++ kw ++ " "))
    clean_query
  pyStrip clean_query

/-- The fixed "no data" message of
`_format_streamlit_query_response` (line 62). -/
def no_data_message : String :=
  "**No Data Found** 📭\n\nThe query executed successfully but returned no results."

/-- `_format_error_response` (lines 378-388). -/
def format_error_response (error_result : ResultRecord) : String :=
  let error_msg := error_result.error.getD "Unknown error"
  let suggestion := error_result.suggestion.getD ""
  let response := "❌ **Error:** " ++ error_msg
  if suggestion ≠ "" then response ++ "\n\n💡 **Suggestion:** " ++ suggestion
  else response

/-- The `response_parts` list built by `_format_streamlit_query_response`
(lines 64-91): quick answer, data preview, key insights, files section and
executed query — each appended only when non-empty/present. -/
def response_parts (result : ResultRecord) (qd : QueryData)
    (user_question : String) (csv_result : Option CsvResult)
    (visualization_result : Option VizResult) : List String :=
  (if generate_quick_summary qd user_question ≠ "" then
    ["**✨ Quick Answer:**\n" ++ generate_quick_summary qd user_question]
   else []) ++
  (if format_data_preview_table qd ≠ "" then
    ["**📊 Data Preview:**\n" ++ format_data_preview_table qd]
   else []) ++
  (if generate_key_insights qd ≠ "" then
    ["**🔍 Key Insights:**\n" ++ generate_key_insights qd]
   else []) ++
  (if format_files_section csv_result visualization_result ≠ "" then
    [format_files_section csv_result visualization_result]
   else []) ++
  (match result.executed_query with
   | some exq =>
     if exq ≠ "" then
       ["**⚡ Executed Query:**\n```sql\n" ++ clean_sql_for_streamlit exq
         ++ "\n```"]
     else []
   | Option.none => [])

/-- `_format_streamlit_query_response` (lines 52-92): error formatting on
failure, the fixed "no data" message on an empty result, otherwise the
response parts joined by blank lines. -/
def format_streamlit_query_response (result : ResultRecord)
    (user_question : String) (csv_result : Option CsvResult)
    (visualization_result : Option VizResult) : String :=
  if result.success = false then format_error_response result
  else
    match result.result with
    | Option.none => no_data_message
    | some qd =>
      if qd.data.isEmpty then no_data_message
      else
        pyJoin "\n\n"
          (response_parts result qd user_question csv_result
            visualization_result)

/-- `_format_schema_response` (lines 343-376): error text on failure, the
table catalog, a single table's columns, or a fallback line. -/
def format_schema_response (schema_result : ResultRecord) : String :=
  if schema_result.success = false then
    "❌ **Schema Error:** " ++ schema_result.error.getD "Unknown error"
  else
    match schema_result.tables with
    | some tables =>
      pyJoin "\n" ("**📋 Available Tables**\n" ::
        tables.flatMap (fun nd => ["**" ++ nd.1 ++ "**", "  " ++ nd.2, ""]))
    | Option.none =>
      match schema_result.tableSchema with
      | some sch =>
        let table_name := schema_result.table_name.getD "Unknown"
        pyJoin "\n" (("**📋 Table Schema: " ++ table_name ++ "**\n") ::
          (match sch.description with
           | some d => if d ≠ "" then ["**Description:** " ++ d ++ "\n"] else []
           | Option.none => []) ++
          ["**Columns:**"] ++
          sch.columns.flatMap (fun ci =>
            ["• **" ++ ci.1 ++ "** (" ++ ci.2.type ++ ")",
             "  " ++ ci.2.description, ""]))
      | Option.none => "No schema information available"

/-- The record returned by `ResponseFormatterTool._run`. -/
structure FormatResult where
  success : Bool
  formatted_response : String
deriving DecidableEq, Repr

/-- `ResponseFormatterTool._run` (lines 24-50): dispatch on the response
type; the model is total, so the exception branch is unreachable. -/
def response_formatter_run (query_result : ResultRecord)
    (user_question : String) (response_type : String)
    (csv_result : Option CsvResult)
    (visualization_result : Option VizResult) : FormatResult :=
  let formatted_response :=
    if response_type = "schema" then format_schema_response query_result
    else if response_type = "error" then format_error_response query_result
    else
      format_streamlit_query_response query_result user_question csv_result
        visualization_result
  { success := true, formatted_response := formatted_response }

/-- `format_help_response` (response_formatter_tool.py lines 390-416): the
fixed usage text. -/
def format_help_response : String :=
  pyJoin "\n"
    ["",
     "**🔮 Telmi - Your Telecom Analytics Assistant**",
     "",
     "**What can I help you with?**",
     "",
     "• **📊 Data Analysis:** Ask questions about your telecom data in natural language",
     "• **🏆 Top Rankings:** \"Show me the top 10 customers by data usage\"",
     "• **🌍 Geographic Analysis:** \"What's the distribution of users by country?\"",
     "• **⏰ Time-based Queries:** \"How much data was used last month?\"",
     "• **📈 Custom Reports:** \"Generate a summary of device activity\"",
     "",
     "**✨ Features:**",
     "• **Automatic CSV exports** for all query results",
     "• **Interactive visualizations** with professional charts",
     "• **Smart SQL generation** from your questions",
     "• **Mobile-friendly** interface and charts",
     "",
     "**💡 Example Questions:**",
     "• \"Who are our top 20 customers by ticket count?\"",
     "• \"Show data usage by country this week\"",
     "• \"What devices are most active?\"",
     "• \"List all available tables\"",
     "",
     "**🚀 Just ask your question in natural language, and I'll analyze your data!**",
     "        "]

/-! ### core/tool_nodes.py — the LangGraph tool nodes -/

/-- Python `s.split()`: split on whitespace runs, dropping empties. -/
def splitOnP (p : Char → Bool) : List Char → List (List Char)
  | [] => [[]]
  | c :: rest =>
    let r := splitOnP p rest
    if p c then [] :: r
    else
      match r with
      | [] => [[c]]
      | g :: gs => (c :: g) :: gs

/-- Python `s.split()` (no argument). -/
def pySplitWs (s : String) : List String :=
  ((splitOnP Char.isWhitespace s.data).map String.mk).filter (fun w => w ≠ "")

/-- The `ClickHouseAgentState` fields that the tool nodes read and write
(core/state.py is referenced by the nodes; its fields are taken from their
uses). -/
structure NodeState where
  user_question : String
  query_type : Route
  sql_generation : SqlResult := { success := false }
  query_execution : ResultRecord := { success := false }
  csv_export : Option CsvResult := none
  next_action : String := ""
  error_occurred : Bool := false
  error_message : Option String := none
  final_response : String := ""
deriving Repr

/-- `export_csv_node` (core/tool_nodes.py lines 67-127): the exporter runs
only when the execution succeeded with data; an exporter exception (the
`.error` case) is caught into a failure record; in every branch
`next_action` becomes "format_response" and `error_occurred` is left
untouched. -/
def export_csv_node (state : NodeState)
    (exporter : Except String CsvResult) : NodeState :=
  if state.query_execution.success && state.query_execution.hasData then
    match exporter with
    | .ok result =>
      { state with csv_export := some result,
                   next_action := "format_response" }
    | .error e =>
      { state with
        csv_export := some
          { success := false, error := some e,
            message := some "CSV export failed" },
        next_action := "format_response" }
  else
    { state with
      csv_export := some
        { success := false,
          message := some "No data available for CSV export" },
      next_action := "format_response" }

/-- `_handle_schema_request` (core/tool_nodes.py lines 183-243): the table
catalog for "list tables"/"show tables", a single table's schema when the
second word names a known table, a not-found record (carrying the valid
table names) otherwise, and the catalog as default. -/
def handle_schema_request (user_question : String) : ResultRecord :=
  if strIn "list tables" (pyLower user_question) ||
      strIn "show tables" (pyLower user_question) then
    { success := true,
      tables := some (TABLE_SCHEMAS.map
        (fun ts => (ts.1, ts.2.description.getD "No description"))),
      message := some ("Found " ++ toString TABLE_SCHEMAS.length ++ " tables") }
  else
    match (pySplitWs user_question).get? 1 with
    | some w =>
      match table_schema_get (pyUpper w) with
      | some sch =>
        { success := true, tableSchema := some sch,
          table_name := some (pyUpper w),
          message := some ("Schema for table " ++ pyUpper w) }
      | Option.none =>
        { success := false,
          error := some ("Table '" ++ pyUpper w ++ "' not found"),
          available_tables := table_schema_keys }
    | Option.none =>
      { success := true,
        tables := some (TABLE_SCHEMAS.map
          (fun ts => (ts.1, ts.2.description.getD "No description"))),
        message := some "All available table schemas" }

/-- `format_response_node` (core/tool_nodes.py lines 129-181): help text
for help requests, the schema formatter over `_handle_schema_request` for
schema requests, and the query formatter over the execution and CSV
results for data queries. -/
def format_response_node (state : NodeState) : NodeState :=
  match state.query_type with
  | .help_request => { state with final_response := format_help_response }
  | .schema_request =>
    let schema_result := handle_schema_request state.user_question
    let format_result := response_formatter_run schema_result
      state.user_question "schema" Option.none Option.none
    { state with final_response := format_result.formatted_response }
  | .data_query =>
    let format_result := response_formatter_run state.query_execution
      state.user_question "query" state.csv_export Option.none
    { state with final_response := format_result.formatted_response }

/-- `ClickHouseAgent._format_response` (main.py lines 583-612): pick the
response type from the keys of the execution result ("tables"/"schema" →
schema, "help_content" → returned directly, failure → error, otherwise
query) and format. -/
def main_format_response (execution_result : ResultRecord)
    (user_question : String) (csv_export_result : Option CsvResult) :
    String :=
  if execution_result.tables.isSome || execution_result.tableSchema.isSome then
    (response_formatter_run execution_result user_question "schema"
      csv_export_result Option.none).formatted_response
  else if execution_result.help_content.isSome then
    execution_result.help_content.getD ""
  else if execution_result.success = false then
    (response_formatter_run execution_result user_question "error"
      csv_export_result Option.none).formatted_response
  else
    (response_formatter_run execution_result user_question "query"
      csv_export_result Option.none).formatted_response

/-- A concatenation whose left part is non-empty is non-empty. -/
theorem str_append_ne_empty (a b : String) (ha : a ≠ "") : a ++ b ≠ "" := by
  intro hab
  apply ha
  have hlen := congrArg String.length hab
  rw [String.length_append] at hlen
  simp only [String.length_empty] at hlen
  have h0 : a.length = 0 := by omega
  exact String.ext (List.length_eq_zero.mp h0)

/-- A newline-joined list whose first element is non-empty is non-empty. -/
theorem pyJoin_cons_ne_empty (sep x : String) (l : List String)
    (hx : x ≠ "") : pyJoin sep (x :: l) ≠ "" := by
  cases l with
  | nil => simpa [pyJoin] using hx
  | cons y ys =>
    simp only [pyJoin]
    exact str_append_ne_empty _ _ (str_append_ne_empty _ _ hx)

/-- Every early-return summary of `_generate_quick_summary` is non-empty. -/
theorem quick_summary_branch_ne_empty (qd : QueryData) (ql : String)
    (s : String) (h : quick_summary_branch qd ql = some s) : s ≠ "" := by
  unfold quick_summary_branch at h
  split at h
  · split at h
    · split at h
      · obtain rfl := Option.some_inj.mp h
        repeat apply str_append_ne_empty
        decide
      · exact absurd h (by simp)
    · exact absurd h (by simp)
  · split at h
    · split at h
      · split at h
        · obtain rfl := Option.some_inj.mp h
          repeat apply str_append_ne_empty
          decide
        · exact absurd h (by simp)
      · exact absurd h (by simp)
    · split at h
      · split at h
        · split at h
          · obtain rfl := Option.some_inj.mp h
            repeat apply str_append_ne_empty
            decide
          · exact absurd h (by simp)
        · exact absurd h (by simp)
      · exact absurd h (by simp)

/-- With data and columns, the quick summary is never the empty string, so
its part is always appended to the response. -/
theorem generate_quick_summary_ne_empty (qd : QueryData) (q : String)
    (h1 : qd.data ≠ []) (h2 : qd.columns ≠ []) :
    generate_quick_summary qd q ≠ "" := by
  unfold generate_quick_summary
  rw [if_neg (by simp [h1, h2])]
  cases hb : quick_summary_branch qd (pyLower q) with
  | some s => exact quick_summary_branch_ne_empty qd (pyLower q) s hb
  | none =>
    repeat apply str_append_ne_empty
    decide

/-- C4: when query execution succeeds with zero rows, the CSV export tool
is never invoked (a skipped, non-error record is stored) and the final
response is the distinct "no data" message, which is not the error
format. -/
theorem zero_rows_skip_export_no_data_message (er : ResultRecord)
    (qd : QueryData) (user_question : String) (exporter : CsvResult)
    (h1 : er.success = true) (h2 : er.result = some qd) (h3 : qd.data = [])
    (h4 : er.tables = Option.none) (h5 : er.tableSchema = Option.none)
    (h6 : er.help_content = Option.none) :
    (export_csv_step er exporter).2 = false ∧
    (export_csv_step er exporter).1 =
      { success := false,
        message := some "No data available for CSV export" } ∧
    main_format_response er user_question
      (some (export_csv_step er exporter).1) = no_data_message ∧
    pyStartsWith no_data_message "❌ **Error:**" = false := by
  have hd : er.hasData = false := by
    simp [ResultRecord.hasData, h2, h3]
  have hx : export_csv_step er exporter =
      ({ success := false,
         message := some "No data available for CSV export" }, false) := by
    unfold export_csv_step
    rw [hd]
    simp
  have hq : ∀ csv : Option CsvResult,
      format_streamlit_query_response er user_question csv Option.none =
        no_data_message := by
    intro csv
    unfold format_streamlit_query_response
    rw [h1, h2]
    simp [h3]
  refine ⟨by rw [hx], by rw [hx], ?_, by decide⟩
  rw [hx]
  simp [main_format_response, h4, h5, h6, h1, response_formatter_run, hq]

/-- Witness for C4: a successful execution with zero rows; the exporter is
skipped and the "no data" message is returned. -/
theorem zero_rows_skip_export_no_data_message_witness :
    (export_csv_step
        { success := true,
          result := some { columns := ["COUNT"], data := [], row_count := 0 } }
        { success := false }).2 = false ∧
    main_format_response
      { success := true,
        result := some { columns := ["COUNT"], data := [], row_count := 0 } }
      "how many tickets"
      (some (export_csv_step
        { success := true,
          result := some { columns := ["COUNT"], data := [], row_count := 0 } }
        { success := false }).1) = no_data_message :=
  ⟨(zero_rows_skip_export_no_data_message _ _ "how many tickets" _
      rfl rfl rfl rfl rfl rfl).1,
   (zero_rows_skip_export_no_data_message _ _ "how many tickets" _
      rfl rfl rfl rfl rfl rfl).2.2.1⟩

/-- For a data query whose execution succeeded with data, the formatting
node produces the joined response parts of the query formatter. -/
theorem format_response_node_data (st : NodeState) (qd : QueryData)
    (hq : st.query_type = Route.data_query)
    (hs : st.query_execution.success = true)
    (hr : st.query_execution.result = some qd)
    (hd : qd.data ≠ []) :
    (format_response_node st).final_response =
      pyJoin "\n\n" (response_parts st.query_execution qd st.user_question
        st.csv_export Option.none) := by
  unfold format_response_node
  rw [hq]
  unfold response_formatter_run
  simp only [reduceIte]
  unfold format_streamlit_query_response
  rw [hs, hr]
  simp [hd]

/-- C3: when execution succeeded with at least one row but the CSV export
fails (exporter exception or failure record), the error flag stays false,
the pipeline still reaches the formatting stage, and the final response is
the normal query response — containing the quick-answer summary — with an
empty files section (no attachment). -/
theorem export_failure_nonfatal (state : NodeState)
    (exporter : Except String CsvResult) (qd : QueryData)
    (h1 : state.query_execution.success = true)
    (h2 : state.query_execution.result = some qd)
    (h3 : qd.data ≠ []) (h4 : qd.columns ≠ [])
    (h5 : state.error_occurred = false)
    (h6 : state.query_type = Route.data_query)
    (hfail : (∃ e, exporter = .error e) ∨
        ∃ r, exporter = .ok r ∧ r.success = false) :
    (export_csv_node state exporter).error_occurred = false ∧
    (export_csv_node state exporter).next_action = "format_response" ∧
    ∃ c, (export_csv_node state exporter).csv_export = some c ∧
      c.success = false ∧
      format_files_section (some c) Option.none = "" ∧
      (format_response_node (export_csv_node state exporter)).final_response =
        pyJoin "\n\n" (response_parts state.query_execution qd
          state.user_question (some c) Option.none) ∧
      ("**✨ Quick Answer:**\n" ++
          generate_quick_summary qd state.user_question) ∈
        response_parts state.query_execution qd state.user_question
          (some c) Option.none := by
  have hd : state.query_execution.hasData = true := by
    unfold ResultRecord.hasData
    rw [h2]
    simp [h3]
  have hcond :
      (state.query_execution.success && state.query_execution.hasData)
        = true := by
    rw [h1, hd]
    rfl
  obtain ⟨c, hc, hcs⟩ : ∃ c, export_csv_node state exporter =
      { state with csv_export := some c,
                   next_action := "format_response" } ∧
      c.success = false := by
    rcases hfail with ⟨e, rfl⟩ | ⟨r, rfl, hr⟩
    · refine ⟨{ success := false, error := some e, message := some "CSV export failed" }, ?_, rfl⟩
      unfold export_csv_node
      rw [hcond]
      simp
    · refine ⟨r, ?_, hr⟩
      unfold export_csv_node
      rw [hcond]
      simp
  rw [hc]
  refine ⟨h5, rfl, c, rfl, hcs, ?_, ?_, ?_⟩
  · simp [format_files_section, files_info_lines, hcs]
  · exact format_response_node_data _ qd h6 h1 h2 h3
  · unfold response_parts
    rw [if_pos (generate_quick_summary_ne_empty qd _ h3 h4)]
    simp

/-- A concrete data-query state whose execution returned one row. -/
def export_fail_state : NodeState :=
  { user_question := "top customers",
    query_type := Route.data_query,
    query_execution :=
      { success := true,
        result := some
          { columns := ["NAME", "CNT"],
            data := [[PyVal.str "acme", PyVal.int 3]],
            row_count := 1 } } }

/-- Witness for C3: a disk-full exporter exception leaves the error flag
false and still routes to formatting. -/
theorem export_failure_nonfatal_witness :
    (export_csv_node export_fail_state
      (.error "disk full")).error_occurred = false ∧
    (export_csv_node export_fail_state
      (.error "disk full")).next_action = "format_response" :=
  ⟨(export_failure_nonfatal export_fail_state _ _ rfl rfl (by decide)
      (by decide) rfl rfl (Or.inl ⟨"disk full", rfl⟩)).1,
   (export_failure_nonfatal export_fail_state _ _ rfl rfl (by decide)
      (by decide) rfl rfl (Or.inl ⟨"disk full", rfl⟩)).2.1⟩

/-- C7 counterexample: for the schema request "schema NOPE" the result
record does carry the valid table names, but the formatted final response
is the schema-error line, which names only the unknown table and lists
none of the valid table names. -/
theorem schema_unknown_table_counterexample :
    classify "schema NOPE" = Route.schema_request ∧
    (handle_schema_request "schema NOPE").success = false ∧
    (handle_schema_request "schema NOPE").available_tables =
      ["RM_AGGREGATED_DATA", "PLMN", "CELL", "CUSTOMER"] ∧
    (format_response_node
        { user_question := "schema NOPE",
          query_type := Route.schema_request }).final_response =
      "❌ **Schema Error:** Table 'NOPE' not found" ∧
    (["RM_AGGREGATED_DATA", "PLMN", "CELL", "CUSTOMER"].all (fun t =>
      !(strIn t "❌ **Schema Error:** Table 'NOPE' not found"))) = true := by
  refine ⟨by decide, by decide, by decide, by decide, by decide⟩

/-- C7 amended: a schema request naming an unknown table yields a failure
record that carries the valid table names, but the formatted response is
the "Schema Error: Table 'X' not found" message; the formatter ignores
`available_tables` entirely, so the valid names are not listed. -/
theorem schema_unknown_table_message (question : String) (w : String)
    (hnl : strIn "list tables" (pyLower question) = false)
    (hns : strIn "show tables" (pyLower question) = false)
    (hw : (pySplitWs question).get? 1 = some w)
    (hnf : table_schema_get (pyUpper w) = Option.none) :
    handle_schema_request question =
      { success := false,
        error := some ("Table '" ++ pyUpper w ++ "' not found"),
        available_tables := table_schema_keys } ∧
    format_schema_response (handle_schema_request question) =
      "❌ **Schema Error:** Table '" ++ pyUpper w ++ "' not found" ∧
    (∀ r : ResultRecord, format_schema_response r =
        format_schema_response { r with available_tables := [] }) := by
  have hrec : handle_schema_request question =
      { success := false,
        error := some ("Table '" ++ pyUpper w ++ "' not found"),
        available_tables := table_schema_keys } := by
    unfold handle_schema_request
    rw [hnl, hns, hw]
    simp [hnf]
  refine ⟨hrec, ?_, fun r => rfl⟩
  rw [hrec]
  unfold format_schema_response
  simp only [Option.getD_some]
  rw [← String.append_assoc, ← String.append_assoc]
  rfl

/-- Witness for the amended C7. -/
theorem schema_unknown_table_message_witness :
    format_schema_response (handle_schema_request "schema FOO") =
      "❌ **Schema Error:** Table '" ++ pyUpper "FOO" ++ "' not found" :=
  (schema_unknown_table_message "schema FOO" "FOO"
    (by decide) (by decide) (by decide) (by decide)).2.1

/-- With columns and data the preview table text is never empty. -/
theorem format_data_preview_table_ne_empty (qd : QueryData)
    (h1 : qd.columns ≠ []) (h2 : qd.data ≠ []) :
    format_data_preview_table qd ≠ "" := by
  unfold format_data_preview_table
  rw [if_neg (by simp [h1, h2])]
  have hj : pyJoin "\n" (preview_table_lines qd) ≠ "" := by
    unfold preview_table_lines
    simp only [pyJoin]
    repeat apply str_append_ne_empty
    decide
  exact str_append_ne_empty _ _ (str_append_ne_empty _ _ hj)

/-- The preview table renders exactly `min 10 n` data rows (plus header
and separator): the preview is bounded. -/
theorem preview_table_lines_length (qd : QueryData) :
    (preview_table_lines qd).length = 2 + min 10 qd.data.length := by
  unfold preview_table_lines
  simp [List.length_take]
  omega

/-- The dataset-size line is not empty. -/
theorem size_line_ne_empty (qd : QueryData) : size_line qd ≠ "" := by
  unfold size_line
  repeat apply str_append_ne_empty
  decide

/-- With at least two rows, all of them non-empty, `_generate_key_insights`
is exactly the first four insight lines joined by newlines. -/
theorem generate_key_insights_eq (qd : QueryData)
    (h2 : 2 ≤ qd.data.length)
    (hrows : ∀ row ∈ qd.data, row ≠ []) :
    generate_key_insights qd = pyJoin "\n" ((insight_lines qd).take 4) := by
  have hne : qd.data ≠ [] := by
    intro h
    rw [h] at h2
    simp at h2
  unfold generate_key_insights insight_lines
  rw [if_neg (by simp [hne]; omega)]
  by_cases h3 : 3 ≤ qd.data.length ∧ 2 ≤ qd.columns.length
  · have hr : qd.data.head? = some (qd.data.head hne) :=
      List.head?_eq_head hne
    have hl : qd.data.getLast? = some (qd.data.getLast hne) :=
      List.getLast?_eq_getLast_of_ne_nil hne
    obtain ⟨a, ha⟩ : ∃ a, (qd.data.head hne).head? = some a := by
      have hane : qd.data.head hne ≠ [] := hrows _ (List.head_mem hne)
      cases hc : qd.data.head hne with
      | nil => exact absurd hc hane
      | cons v vs => exact ⟨v, rfl⟩
    obtain ⟨b, hb⟩ : ∃ b, (qd.data.getLast hne).head? = some b := by
      have hbne : qd.data.getLast hne ≠ [] := hrows _ (List.getLast_mem hne)
      cases hc : qd.data.getLast hne with
      | nil => exact absurd hc hbne
      | cons v vs => exact ⟨v, rfl⟩
    rw [if_pos h3, if_pos h3]
    unfold first_cell last_cell
    rw [hr, hl]
    simp only [Option.some_bind]
    rw [ha, hb]
  · rw [if_neg h3, if_neg h3]
    simp

/-- For a column among the first four with at least two numeric values,
the min/avg/max range line is among the computed insight lines. -/
theorem range_line_mem_insight_lines (qd : QueryData) (i : Nat) (col : String)
    (hi : i < 4) (hcol : qd.columns.get? i = some col)
    (hn : 2 ≤ (numeric_column_values qd i).length) :
    insight_range_line col (numeric_column_values qd i) ∈ insight_lines qd := by
  have hci : col_insight qd i col =
      some (insight_range_line col (numeric_column_values qd i)) := by
    unfold col_insight
    rw [if_pos hn]
  have hmem : (i, col) ∈ qd.columns.enum.take 4 := by
    have h1 : qd.columns.enum.get? i = some (i, col) := by
      rw [List.get?_eq_getElem?, List.getElem?_enum,
        ← List.get?_eq_getElem?, hcol]
      rfl
    have h2 : (qd.columns.enum.take 4).get? i = some (i, col) := by
      rw [List.get?_eq_getElem?, List.getElem?_take_of_lt hi,
        ← List.get?_eq_getElem?]
      exact h1
    exact List.get?_mem h2
  have hcl : insight_range_line col (numeric_column_values qd i) ∈
      col_insight_lines qd := by
    unfold col_insight_lines
    exact List.mem_filterMap.mpr ⟨(i, col), hmem, hci⟩
  unfold insight_lines
  exact List.mem_cons_of_mem _ (List.mem_append_left _ hcl)

/-- C8 amended: for a successful execution with at least two (non-empty)
rows, the final response is the joined response parts; these contain the
bounded data preview (exactly min 10 n rendered rows — never the full row
set when it exceeds the bound), the key-insights summary whose first line
carries the record count, a min/avg/max line for each of the first four
columns with at least two numeric values (among the insight lines, of
which only the first four are rendered), the export attachment section
when the CSV export succeeded, and the executed SQL statement when the
execution record carries one. -/
theorem data_query_response_structure (er : ResultRecord) (qd : QueryData)
    (q : String) (csv : Option CsvResult)
    (hs : er.success = true) (hr : er.result = some qd)
    (h2 : 2 ≤ qd.data.length) (hc : qd.columns ≠ [])
    (hrows : ∀ row ∈ qd.data, row ≠ []) :
    format_streamlit_query_response er q csv Option.none =
      pyJoin "\n\n" (response_parts er qd q csv Option.none) ∧
    ("**📊 Data Preview:**\n" ++ format_data_preview_table qd) ∈
      response_parts er qd q csv Option.none ∧
    (preview_table_lines qd).length = 2 + min 10 qd.data.length ∧
    (10 < qd.data.length →
      (preview_table_lines qd).length < 2 + qd.data.length) ∧
    ("**🔍 Key Insights:**\n" ++ generate_key_insights qd) ∈
      response_parts er qd q csv Option.none ∧
    generate_key_insights qd = pyJoin "\n" ((insight_lines qd).take 4) ∧
    (insight_lines qd).head? = some (size_line qd) ∧
    (∀ i col, i < 4 → qd.columns.get? i = some col →
      2 ≤ (numeric_column_values qd i).length →
      insight_range_line col (numeric_column_values qd i) ∈
        insight_lines qd) ∧
    (∀ c : CsvResult, csv = some c → c.success = true →
      format_files_section csv Option.none ∈
        response_parts er qd q csv Option.none) ∧
    (∀ s, er.executed_query = some s → s ≠ "" →
      ("**⚡ Executed Query:**\n```sql\n" ++ clean_sql_for_streamlit s
        ++ "\n```") ∈ response_parts er qd q csv Option.none) := by
  have hdne : qd.data ≠ [] := by
    intro h
    rw [h] at h2
    simp at h2
  have hins_eq := generate_key_insights_eq qd h2 hrows
  have hins_ne : generate_key_insights qd ≠ "" := by
    rw [hins_eq, show (4 : ℕ) = 3 + 1 from rfl]
    unfold insight_lines
    rw [List.cons_append, List.take_succ_cons]
    exact pyJoin_cons_ne_empty _ _ _ (size_line_ne_empty qd)
  have hprev_ne := format_data_preview_table_ne_empty qd hc hdne
  refine ⟨?_, ?_, preview_table_lines_length qd, ?_, ?_,
    hins_eq, rfl, ?_, ?_, ?_⟩
  · unfold format_streamlit_query_response
    rw [hs, hr]
    simp [hdne]
  · unfold response_parts
    rw [if_pos hprev_ne]
    simp
  · intro h10
    rw [preview_table_lines_length qd]
    omega
  · unfold response_parts
    rw [if_pos hins_ne]
    simp
  · exact fun i col hi hcol hn =>
      range_line_mem_insight_lines qd i col hi hcol hn
  · intro c hcsv hcs
    subst hcsv
    have hinfo : files_info_lines (some c) Option.none =
        ["📊 **CSV Export:** `" ++ c.filename.getD "data.csv" ++ "` (" ++
          c.size_human.getD "Unknown" ++ ")"] := by
      simp [files_info_lines, hcs]
    have hfs : format_files_section (some c) Option.none ≠ "" := by
      unfold format_files_section
      rw [hinfo]
      simp only [List.isEmpty_cons, Bool.not_false, if_true]
      repeat apply str_append_ne_empty
      decide
    unfold response_parts
    rw [if_pos hfs]
    simp
  · intro s hex hsne
    unfold response_parts
    rw [hex]
    simp [hsne]

/-- A one-row result with a numeric column. -/
def one_row_qd : QueryData :=
  { columns := ["value"], data := [[PyVal.int 5]], row_count := 1 }

/-- A successful execution record holding `one_row_qd`. -/
def one_row_er : ResultRecord :=
  { success := true, result := some one_row_qd,
    executed_query := some "SELECT 5" }

/-- C8 counterexample: a successful single-row result with a numeric
column gets NO statistical min/avg/max summary — `_generate_key_insights`
returns "" for fewer than two rows, and no response part mentions an
average — contradicting the claim for results with "at least one row". -/
theorem single_row_no_stats_counterexample :
    numeric_column_values one_row_qd 0 = [(5 : ℚ)] ∧
    generate_key_insights one_row_qd = "" ∧
    ((response_parts one_row_er one_row_qd "how many"
        (some { success := false }) Option.none).all
      (fun p => !(strIn "Avg" p))) = true := by
  refine ⟨by decide, rfl, by decide⟩

/-- A two-row result used to witness the amended C8. -/
def two_row_qd : QueryData :=
  { columns := ["NAME", "CNT"],
    data := [[PyVal.str "acme", PyVal.int 7], [PyVal.str "beta", PyVal.int 9]],
    row_count := 2 }

/-- A successful execution record holding `two_row_qd`. -/
def two_row_er : ResultRecord :=
  { success := true, result := some two_row_qd,
    executed_query := some "SELECT NAME, CNT FROM CUSTOMER LIMIT 2" }

/-- Witness for the amended C8. -/
theorem data_query_response_structure_witness :
    format_streamlit_query_response two_row_er "top customers"
        (some { success := true, filename := some "r.csv",
                size_human := some "1 KB" }) Option.none =
      pyJoin "\n\n" (response_parts two_row_er two_row_qd "top customers"
        (some { success := true, filename := some "r.csv",
                size_human := some "1 KB" }) Option.none) ∧
    (insight_lines two_row_qd).head? = some (size_line two_row_qd) :=
  ⟨(data_query_response_structure two_row_er two_row_qd "top customers" _
      rfl rfl (by decide) (by decide) (by decide)).1,
   (data_query_response_structure two_row_er two_row_qd "top customers"
      (some { success := true, filename := some "r.csv",
              size_human := some "1 KB" })
      rfl rfl (by decide) (by decide)
      (by decide)).2.2.2.2.2.2.1⟩
